import Mathlib

/-!
Verification development for the xhs-agent publisher (src/index.ts).

The single source file drives a browser over CDP to publish an image post.
We shallowly embed its data model and control flow: pure computations are
translated directly; interactions with the filesystem, the network and the
page are modelled by explicit environment records whose fields describe the
observable answers the code receives (visibility of a text, outcome of an
HTTP GET, result of the CDP liveness probe, ...), and by explicit threading
of the set of files written during the run.
-/

namespace XhsAgent

/-- CDP_PORT constant (src/index.ts line 22). -/
def CDP_PORT : Nat := 9222

/-- CDP_ENDPOINT constant (src/index.ts line 23). -/
def CDP_ENDPOINT : String := "http://127.0.0.1:" ++ toString CDP_PORT

/-- JS String.prototype.startsWith, modelled on the character list. -/
def strStartsWith (s p : String) : Bool := p.data.isPrefixOf s.data

/-- Drop the first n characters of a string. -/
def strDrop (s : String) (n : Nat) : String := ⟨s.data.drop n⟩

/-- Longest prefix of characters satisfying f. -/
def strTakeWhile (s : String) (f : Char → Bool) : String := ⟨s.data.takeWhile f⟩

/-- The character class [a-zA-Z] of the base64 data-URL regex
(src/index.ts line 224). -/
def isRegexAlpha (c : Char) : Bool :=
  (decide (97 ≤ c.toNat) && decide (c.toNat ≤ 122)) ||
    (decide (65 ≤ c.toNat) && decide (c.toNat ≤ 90))

/-- The regex metacharacter dot without the s flag: any character except a
line terminator. -/
def isRegexDot (c : Char) : Bool :=
  !(c == '\n' || c == '\r' || decide (c.toNat = 0x2028) || decide (c.toNat = 0x2029))

/-- Model of matching a source path against the regex
data:image\/([a-zA-Z]+);base64,(.+)$ anchored at both ends
(src/index.ts line 224): returns the declared MIME subtype and the
base64 payload on a match. -/
def parseDataImage (s : String) : Option (String × String) :=
  if strStartsWith s "data:image/" then
    let rest := strDrop s "data:image/".length
    let subtype := strTakeWhile rest isRegexAlpha
    let afterSub := strDrop rest subtype.length
    if decide (0 < subtype.length) && strStartsWith afterSub ";base64," then
      let payload := strDrop afterSub ";base64,".length
      if decide (0 < payload.length) && payload.data.all isRegexDot then
        some (subtype, payload)
      else none
    else none
  else none

/-- Outcome of the HTTPS GET as observed by the downloadImage callbacks:
either a response carrying a status code and message, or a transport
error event. -/
inductive HttpResult where
  | response (statusCode : Nat) (statusMessage : String)
  | transportError (msg : String)

/-- Model of downloadImage (src/index.ts lines 153-171). The write stream
for dest is created before the request is issued, so the file at dest comes
into existence immediately; on a transport error the error handler unlinks
dest; on a status code other than 200 the promise is rejected with the
download-failure message and no unlink is performed, so the created file
stays behind. The result is the promise outcome paired with the list of
files on disk afterwards. -/
def downloadImage (r : HttpResult) (dest : String) (files : List String) :
    Except String Unit × List String :=
  let files1 := dest :: files
  match r with
  | .transportError msg => (Except.error msg, files1.erase dest)
  | .response code msg =>
    if code == 200 then (Except.ok (), files1)
    else (Except.error ("Failed to download image: " ++ toString code ++ " " ++ msg), files1)

/-- Model of the PublishConfig interface (src/index.ts lines 145-151). -/
structure PublishConfig where
  imagePaths : Option (List String)
  imagePath : Option String
  title : String
  content : String
  taskId : Option String

/-- The elif arm of the source-path selection: fall back to the single
legacy imagePath field, or fail (src/index.ts lines 194-199). -/
def sourcePathsFallback (cfg : PublishConfig) : Except String (List String) :=
  match cfg.imagePath with
  | some p => Except.ok [p]
  | none =>
    Except.error "Image path is required for XHS publish. Please provide imagePaths or imagePath."

/-- Source image path selection (src/index.ts lines 190-199): a non-empty
imagePaths array wins, else the legacy single imagePath, else an error. -/
def sourcePaths (cfg : PublishConfig) : Except String (List String) :=
  match cfg.imagePaths with
  | some ps => if 0 < ps.length then Except.ok ps else sourcePathsFallback cfg
  | none => sourcePathsFallback cfg

/-- The three signals raced after clicking publish (src/index.ts lines
417-430): the literal success text, the alternate note-success text, or
the URL transition to a note page. -/
inductive RaceSignal where
  | textSuccess
  | textNoteSuccess
  | urlChange
deriving DecidableEq

/-- What the page answers during one iteration of the submit-and-confirm
loop: visibility of the publish controls, of the transient upload popup
phrases, the outcome of the success race (none means all three waits timed
out), and visibility of the alternate success phrases and of the platform
error phrases scanned afterwards. -/
structure AttemptEnv where
  buttonVisible : Bool
  fallbackVisible : Bool
  noteButtonVisible : Bool
  popupVisible : String → Bool
  raceResult : Option RaceSignal
  altVisible : String → Bool
  errorVisible : String → Bool

/-- uploadPopupMessages (src/index.ts line 385). -/
def uploadPopupMessages : List String := ["图片上传中", "请稍后", "正在处理", "上传中"]

/-- additionalSuccessTexts (src/index.ts line 446). -/
def additionalSuccessTexts : List String := ["已发布", "成功", "发布完成", "笔记已发布"]

/-- errorMessages scanned on a failed attempt (src/index.ts lines 460-467). -/
def errorMessages : List String :=
  ["发布失败", "请稍后再试", "网络错误", "请先登录", "内容违规", "审核不通过"]

/-- What one loop iteration records after the publish control was clicked:
whether the attempt ended with publishSuccess set, whether the upload popup
was detected, and whether the error scan found one of the platform error
phrases. errorDetected is only computed when the race timed out and the
alternate success rescan also failed, exactly as in the source. -/
structure AttemptResult where
  success : Bool
  popupDetected : Bool
  errorDetected : Bool
deriving DecidableEq

/-- The body of one iteration after the control was located (src/index.ts
lines 382-504): popup scan, success race, alternate success rescan, error
scan. The popup branch only waits and re-clicks, which has no further
modelled effect. -/
def attemptOutcome (a : AttemptEnv) : AttemptResult :=
  let popup := uploadPopupMessages.any a.popupVisible
  match a.raceResult with
  | some _ => ⟨true, popup, false⟩
  | none =>
    if additionalSuccessTexts.any a.altVisible then ⟨true, popup, false⟩
    else ⟨false, popup, errorMessages.any a.errorVisible⟩

/-- One iteration of the loop (src/index.ts lines 359-505): locate the
publish control by the ordered strategies (role button, exact text,
note-publish text) and throw if none is visible, else run the iteration
body. -/
def runAttempt (a : AttemptEnv) : Except String AttemptResult :=
  if a.buttonVisible then Except.ok (attemptOutcome a)
  else if a.fallbackVisible then Except.ok (attemptOutcome a)
  else if a.noteButtonVisible then Except.ok (attemptOutcome a)
  else Except.error "Publish button not found"

/-- maxRetries of the submit-and-confirm loop (src/index.ts line 353). -/
def maxRetries : Nat := 3

/-- The submit-and-confirm retry loop (src/index.ts line 359): runs while
attempts remain and publishSuccess is false, returning the final value of
publishSuccess, or the thrown error if the publish control disappears. -/
def publishLoop (att : Nat → AttemptEnv) : Nat → Nat → Except String Bool
  | _, 0 => Except.ok false
  | attempt, fuel + 1 =>
    match runAttempt (att attempt) with
    | .error e => Except.error e
    | .ok r => if r.success then Except.ok true else publishLoop att (attempt + 1) fuel

/-- The settling wait in seconds after the batch upload
(src/index.ts line 297): Math.min(30 + (n - 1) * 5, 60). -/
def settleWait (n : Nat) : Int := min (30 + ((n : Int) - 1) * 5) 60

/-- What the page answers during the steps of the try block before the
retry loop: the outcome of page.goto (none means it returned normally),
whether the URL is already the publish page, whether the user reaches it
within the 120s login window, visibility of the upload tab, whether the
file input becomes attached within its 30s timeout, and the per-attempt
answers of the loop. -/
structure PageEnv where
  gotoResult : Option String
  onPublishPage : Bool
  loginReached : Bool
  imageTabVisible : Bool
  fileInputAttached : Bool
  fileInputTimeoutMsg : String
  attempt : Nat → AttemptEnv

/-- The body of the try block (src/index.ts lines 256-507) given the number
n of resolved images: navigation, login wait, upload, settling wait, then
the retry loop. Returns the loop outcome (or the thrown error) paired with
the settling wait that was performed, if the run got that far. -/
def tryBody (pe : PageEnv) (n : Nat) : Except String Bool × Option Int :=
  match pe.gotoResult with
  | some e => (Except.error e, none)
  | none =>
    if pe.onPublishPage || pe.loginReached then
      if pe.fileInputAttached then
        (publishLoop pe.attempt 1 maxRetries, some (settleWait n))
      else (Except.error pe.fileInputTimeoutMsg, none)
    else
      (Except.error "Timeout waiting for login. Please reach the publish page manually.", none)

/-- An existing page of the connected browser, identified abstractly. -/
structure PageHandle where
  id : Nat
deriving DecidableEq

/-- A browsing context of the connected browser with its open pages. -/
structure BrowserContext where
  pages : List PageHandle
deriving DecidableEq

/-- The connected browser with its browsing contexts. -/
structure BrowserModel where
  contexts : List BrowserContext
deriving DecidableEq

/-- What getOrCreatePage produces: the reused first existing page, a new
page in the first existing context, or a fresh context (with the fixed
default viewport) holding a new page. -/
inductive PageResult where
  | existing (p : PageHandle)
  | newPageInFirstContext
  | newContextAndPage (viewportWidth viewportHeight : Nat)
deriving DecidableEq

/-- Model of getOrCreatePage (src/index.ts lines 120-139). -/
def getOrCreatePage (b : BrowserModel) : PageResult :=
  match b.contexts with
  | [] => PageResult.newContextAndPage 1280 800
  | ctx :: _ =>
    match ctx.pages with
    | [] => PageResult.newPageInFirstContext
    | p :: _ => PageResult.existing p

/-- Process-level actions of the session manager: spawning a detached
Chrome process, or attaching to the debugging endpoint. -/
inductive SessionAction where
  | spawn (chromePath : String)
  | attach (endpoint : String)
deriving DecidableEq

/-- The full environment a run observes: platform flag, the result of the
Chrome install-path scan, the initial CDP liveness probe, the first polling
iteration at which the endpoint answers after a launch (none if never), the
connected browser state, the temporary directory, Date.now per processed
image, the HTTP outcome per downloaded image, which pre-existing paths
exist on disk, and the page behaviour. -/
structure RunEnv where
  isWindows : Bool
  chromePath : Option String
  cdpAvailable : Bool
  launchPollSucceedsAt : Option Nat
  browser : BrowserModel
  tmpDir : String
  now : Nat → Nat
  download : Nat → HttpResult
  localExists : String → Bool
  page : PageEnv

/-- The polling budget while waiting for the CDP port (src/index.ts line 95). -/
def launchMaxRetries : Nat := 20

/-- Model of launchChrome (src/index.ts lines 67-106): locate the Chrome
executable (throwing if absent), spawn it detached, then poll the liveness
endpoint up to 20 times, throwing on timeout. -/
def launchChrome (env : RunEnv) : Except String (List SessionAction) :=
  match env.chromePath with
  | none => Except.error "Chrome 未找到，请安装 Google Chrome"
  | some p =>
    match env.launchPollSucceedsAt with
    | some k =>
      if k < launchMaxRetries then Except.ok [SessionAction.spawn p]
      else Except.error "Chrome 启动超时"
    | none => Except.error "Chrome 启动超时"

/-- Model of connectCDP (src/index.ts lines 108-118): if the liveness probe
answers, attach directly; otherwise launch Chrome first, then attach. -/
def connectCDP (env : RunEnv) : Except String (List SessionAction) :=
  if env.cdpAvailable then Except.ok [SessionAction.attach CDP_ENDPOINT]
  else
    match launchChrome env with
    | .error e => Except.error e
    | .ok acts => Except.ok (acts ++ [SessionAction.attach CDP_ENDPOINT])

/-- fs.existsSync as seen during ingestion: a path exists if it was written
during this run or already existed on disk. -/
def existsSync (env : RunEnv) (written : List String) (p : String) : Bool :=
  written.contains p || env.localExists p

/-- The re-verification after resolving one image (src/index.ts lines
241-245): the resolved path must exist on disk. -/
def checkExists (env : RunEnv) (actualPath : String) (written : List String) :
    Except String (String × List String) :=
  if existsSync env written actualPath then Except.ok (actualPath, written)
  else Except.error ("Image file not found: " ++ actualPath)

/-- Target filename for a downloaded RemoteUrl image
(src/index.ts line 214): publish_<Date.now()>_<index>.png. -/
def remoteTargetPath (env : RunEnv) (i : Nat) : String :=
  env.tmpDir ++ "/publish_" ++ toString (env.now i) ++ "_" ++ toString i ++ ".png"

/-- Target filename for a decoded InlineBase64 image
(src/index.ts line 233): publish_base64_<Date.now()>_<index>.<ext>. -/
def base64TargetPath (env : RunEnv) (i : Nat) (ext : String) : String :=
  env.tmpDir ++ "/publish_base64_" ++ toString (env.now i) ++ "_" ++ toString i ++ "." ++ ext

/-- Resolution of the i-th source image (src/index.ts lines 206-246):
download a RemoteUrl to the temp dir, decode an InlineBase64 payload to the
temp dir with the extension derived from the MIME subtype (jpeg becomes
jpg), or take a LocalPath as is; then re-verify existence. Returns the
resolved path and the files written so far. -/
def processStep (env : RunEnv) (i : Nat) (sourcePath : String) (written : List String) :
    Except String (String × List String) :=
  if strStartsWith sourcePath "http" then
    let actualPath := remoteTargetPath env i
    match downloadImage (env.download i) actualPath written with
    | (.ok _, written1) => checkExists env actualPath written1
    | (.error e, _) =>
      Except.error ("Failed to download image " ++ toString (i + 1) ++ ": " ++ e)
  else if strStartsWith sourcePath "data:image" then
    match parseDataImage sourcePath with
    | none =>
      Except.error
        ("Failed to process Base64 image " ++ toString (i + 1) ++ ": Invalid Base64 image format")
    | some (subtype, _) =>
      let ext := if subtype == "jpeg" then "jpg" else subtype
      let actualPath := base64TargetPath env i ext
      checkExists env actualPath (actualPath :: written)
  else
    checkExists env sourcePath written

/-- The ingestion loop (src/index.ts lines 202-246): resolves each source
path in order, aborting the whole request on the first failure. -/
def processImages (env : RunEnv) : List String → Nat → List String →
    Except String (List String × List String)
  | [], _, written => Except.ok ([], written)
  | p :: rest, i, written =>
    match processStep env i p written with
    | .error e => Except.error e
    | .ok (a, written1) =>
      match processImages env rest (i + 1) written1 with
      | .error e => Except.error e
      | .ok (as, written2) => Except.ok (a :: as, written2)

/-- The single JSON object a completed run prints to standard output
(src/index.ts lines 510, 512, 517): taskId, status, and data.message. -/
structure OutValue where
  taskId : Option String
  status : String
  message : String
deriving DecidableEq

/-- A standard-output line of the process: either the data.message result
object printed inside runPublish, or the error-field variant printed by
main when runPublish throws before the workflow starts
(src/index.ts line 554). -/
inductive StdoutLine where
  | result (o : OutValue)
  | errorVariant (taskId : Option String) (status : String) (error : String)
deriving DecidableEq

/-- Observable side effects of a run: the session-manager actions, the page
acquisition outcome, the resolved image paths and the settling wait, each
present as far as the run got. -/
structure RunTrace where
  sessionActions : List SessionAction
  pageOutcome : Option PageResult
  resolved : List String
  settlingWait : Option Int

/-- The trace of a run that failed before any browser interaction. -/
def emptyTrace : RunTrace := ⟨[], none, [], none⟩

/-- The error thrown when no Chrome install is found
(src/index.ts lines 181-185). -/
def chromeMissingMsg (isWindows : Bool) : String :=
  "未检测到 Chrome 浏览器。" ++
    (if isWindows then "请访问 https://www.google.cn/chrome/ 下载安装 Chrome 浏览器"
     else "请访问 https://www.google.cn/chrome/ 下载安装 Chrome 浏览器，或运行: brew install --cask google-chrome")

/-- The confirmed-success message (src/index.ts line 510). -/
def successMessage : String := "发布成功！"

/-- The manual-verification message printed when the retries are exhausted
without a confirmed signal (src/index.ts line 512). -/
def manualCheckMessage : String := "发布操作已执行，请检查小红书后台确认。"

/-- The tail of runPublish after session acquisition (src/index.ts lines
256-522): run the try block and print exactly one result object; a throw
inside the try block is caught and reported as a failed result. -/
def workflowOutcome (env : RunEnv) (cfg : PublishConfig) (actual : List String)
    (acts : List SessionAction) : Except String OutValue × RunTrace :=
  let pg := getOrCreatePage env.browser
  match tryBody env.page actual.length with
  | (.ok true, wt) =>
    (Except.ok ⟨cfg.taskId, "success", successMessage⟩, ⟨acts, some pg, actual, wt⟩)
  | (.ok false, wt) =>
    (Except.ok ⟨cfg.taskId, "success", manualCheckMessage⟩, ⟨acts, some pg, actual, wt⟩)
  | (.error e, wt) =>
    (Except.ok ⟨cfg.taskId, "failed", e⟩, ⟨acts, some pg, actual, wt⟩)

/-- Model of runPublish (src/index.ts lines 177-523). An Except.error value
means runPublish threw before the try block (Chrome missing, no image
field, ingestion failure, session-acquisition failure); an Except.ok value
is the single result object printed to standard output. -/
def runPublish (env : RunEnv) (cfg : PublishConfig) : Except String OutValue × RunTrace :=
  match env.chromePath with
  | none => (Except.error (chromeMissingMsg env.isWindows), emptyTrace)
  | some _ =>
    match sourcePaths cfg with
    | .error e => (Except.error e, emptyTrace)
    | .ok srcs =>
      match processImages env srcs 0 [] with
      | .error e => (Except.error e, emptyTrace)
      | .ok (actual, _) =>
        match connectCDP env with
        | .error e => (Except.error e, ⟨[], none, actual, none⟩)
        | .ok acts => workflowOutcome env cfg actual acts

/-- The standard-output stream of main for one parsed stdin config
(src/index.ts lines 549-556): the result object printed inside runPublish,
or the error-field variant printed by main when runPublish throws. -/
def mainStdout (env : RunEnv) (cfg : PublishConfig) : List StdoutLine :=
  match (runPublish env cfg).1 with
  | .ok o => [StdoutLine.result o]
  | .error e => [StdoutLine.errorVariant cfg.taskId "failed" e]

/-- A page answering every publish attempt with a visible publish button and
an immediately winning success race. -/
def attemptEnvRace : AttemptEnv :=
  ⟨true, false, false, fun _ => false, some RaceSignal.textSuccess, fun _ => false, fun _ => false⟩

/-- A page whose publish button is visible but where no success signal ever
fires: the race times out and no alternate phrase is visible. -/
def attemptEnvFail : AttemptEnv :=
  ⟨true, false, false, fun _ => false, none, fun _ => false, fun _ => false⟩

/-- Like attemptEnvFail, but the platform error phrase 发布失败 is visible
on the page. -/
def attemptEnvFailErr : AttemptEnv :=
  ⟨true, false, false, fun _ => false, none, fun _ => false, fun m => m == "发布失败"⟩

/-- A cooperating page: navigation lands on the publish page, the file
input is attached, and the success race fires on the first attempt. -/
def pageEnvCoop : PageEnv :=
  ⟨none, true, false, false, true, "Timeout 30000ms exceeded.", fun _ => attemptEnvRace⟩

/-- A page where every attempt fails to surface any success signal. -/
def pageEnvNoSignal : PageEnv :=
  ⟨none, true, false, false, true, "Timeout 30000ms exceeded.", fun _ => attemptEnvFail⟩

/-- A page where every attempt fails and 发布失败 is visibly displayed. -/
def pageEnvErrSeen : PageEnv :=
  ⟨none, true, false, false, true, "Timeout 30000ms exceeded.", fun _ => attemptEnvFailErr⟩

/-- A connected browser with one existing context holding one page. -/
def browser7 : BrowserModel := ⟨[⟨[⟨7⟩]⟩]⟩

/-- A fully cooperating run environment: Chrome installed, CDP already
answering, pre-existing local files on disk, HTTP downloads succeeding. -/
def envCoop : RunEnv :=
  ⟨false, some "/usr/bin/chrome", true, none, browser7, "/tmp/auto-tauri-xhs",
    fun _ => 0, fun _ => HttpResult.response 200 "OK", fun _ => true, pageEnvCoop⟩

/-- Like envCoop, except no success signal ever fires on the page. -/
def envNoSignal : RunEnv :=
  ⟨false, some "/usr/bin/chrome", true, none, browser7, "/tmp/auto-tauri-xhs",
    fun _ => 0, fun _ => HttpResult.response 200 "OK", fun _ => true, pageEnvNoSignal⟩

/-- Like envNoSignal, with the platform error phrase 发布失败 visible. -/
def envErrSeen : RunEnv :=
  ⟨false, some "/usr/bin/chrome", true, none, browser7, "/tmp/auto-tauri-xhs",
    fun _ => 0, fun _ => HttpResult.response 200 "OK", fun _ => true, pageEnvErrSeen⟩

/-- The end-to-end scenario input of the specification: one inline base64
png, title T, content C, correlation id abc. -/
def abcConfig : PublishConfig :=
  ⟨some ["data:image/png;base64,AAAA"], none, "T", "C", some "abc"⟩

/-- A one-local-image request with correlation id t2. -/
def cfg2 : PublishConfig := ⟨some ["a.png"], none, "T", "C", some "t2"⟩

/-- A one-local-image request with correlation id t4. -/
def cfg4 : PublishConfig := ⟨some ["a.png"], none, "T", "C", some "t4"⟩

/-- A one-local-image request with correlation id t9. -/
def cfg9 : PublishConfig := ⟨some ["a.png"], none, "T", "C", some "t9"⟩

/-- Helper: resolution of an InlineBase64 reference writes the decoded payload
to the temp directory under the extension derived from the MIME subtype and
returns that path. -/
theorem processStep_data (env : RunEnv) (i : Nat) (written : List String)
    (s subtype payload : String)
    (h1 : strStartsWith s "http" = false)
    (h2 : strStartsWith s "data:image" = true)
    (h3 : parseDataImage s = some (subtype, payload)) :
    processStep env i s written =
      Except.ok (base64TargetPath env i (if subtype == "jpeg" then "jpg" else subtype),
        base64TargetPath env i (if subtype == "jpeg" then "jpg" else subtype) :: written) := by
  simp [processStep, h1, h2, h3, checkExists, existsSync]

/-- Helper: resolution of a RemoteUrl reference whose download succeeds returns
the generated temp-directory target path. -/
theorem processStep_remote (env : RunEnv) (i : Nat) (written : List String) (s m : String)
    (h1 : strStartsWith s "http" = true)
    (h2 : env.download i = HttpResult.response 200 m) :
    processStep env i s written =
      Except.ok (remoteTargetPath env i, remoteTargetPath env i :: written) := by
  simp [processStep, h1, h2, downloadImage, checkExists, existsSync]

/-- Helper: a successful ingestion run resolves exactly as many paths as it
was given. -/
theorem processImages_length (env : RunEnv) :
    ∀ (srcs : List String) (i : Nat) (written out written2 : List String),
      processImages env srcs i written = Except.ok (out, written2) →
      out.length = srcs.length := by
  intro srcs
  induction srcs with
  | nil =>
    intro i written out written2 h
    simp only [processImages] at h
    injection h with h
    injection h with h1 h2
    simp [← h1]
  | cons p rest ih =>
    intro i written out written2 h
    simp only [processImages] at h
    split at h
    · cases h
    · rename_i a written1 heq
      split at h
      · cases h
      · rename_i as written3 heq2
        injection h with h
        injection h with h1 h2
        subst h1
        simp [ih _ _ _ _ heq2]

/-- Helper: in a successful ingestion run, the j-th resolved path is the result
of resolving the j-th source path. -/
theorem processImages_get (env : RunEnv) :
    ∀ (srcs : List String) (i : Nat) (written out written2 : List String),
      processImages env srcs i written = Except.ok (out, written2) →
      ∀ (j : Nat) (hj : j < srcs.length) (hj2 : j < out.length),
        ∃ w w2, processStep env (i + j) (srcs.get ⟨j, hj⟩) w =
          Except.ok (out.get ⟨j, hj2⟩, w2) := by
  intro srcs
  induction srcs with
  | nil =>
    intro i written out written2 h j hj hj2
    exact absurd hj (by simp)
  | cons p rest ih =>
    intro i written out written2 h j hj hj2
    simp only [processImages] at h
    split at h
    · cases h
    · rename_i a written1 heq
      split at h
      · cases h
      · rename_i as written3 heq2
        injection h with h
        injection h with h1 h2
        subst h1
        match j with
        | 0 => exact ⟨written, written1, by simpa using heq⟩
        | Nat.succ j' =>
          have hj' : j' < rest.length := by simpa using hj
          have hj2' : j' < as.length := by simpa using hj2
          obtain ⟨w, w2, hw⟩ := ih (i + 1) written1 as written3 heq2 j' hj' hj2'
          refine ⟨w, w2, ?_⟩
          have harith : i + (j' + 1) = i + 1 + j' := by omega
          rw [harith]
          simpa using hw

/-- Helper: the selected source path list is never empty. -/
theorem sourcePaths_nonempty (cfg : PublishConfig) (srcs : List String)
    (h : sourcePaths cfg = Except.ok srcs) : 1 ≤ srcs.length := by
  unfold sourcePaths at h
  split at h
  · rename_i ps hps
    split at h
    · injection h with h
      subst h
      omega
    · unfold sourcePathsFallback at h
      split at h
      · injection h with h; subst h; simp
      · cases h
  · unfold sourcePathsFallback at h
    split at h
    · injection h with h; subst h; simp
    · cases h

/-- Helper: when some publish control is visible, the attempt does not throw. -/
theorem runAttempt_ok (a : AttemptEnv)
    (h : a.buttonVisible = true ∨ a.fallbackVisible = true ∨ a.noteButtonVisible = true) :
    runAttempt a = Except.ok (attemptOutcome a) := by
  rcases h with h | h | h <;> simp [runAttempt, h, ite_self]

/-- Helper: when the race times out and no alternate success phrase is visible,
the attempt fails and the error scan runs. -/
theorem attemptOutcome_fail (a : AttemptEnv)
    (hrace : a.raceResult = none)
    (halt : ∀ t, t ∈ additionalSuccessTexts → a.altVisible t = false) :
    attemptOutcome a =
      ⟨false, uploadPopupMessages.any a.popupVisible, errorMessages.any a.errorVisible⟩ := by
  have h1 := halt "已发布" (by simp [additionalSuccessTexts])
  have h2 := halt "成功" (by simp [additionalSuccessTexts])
  have h3 := halt "发布完成" (by simp [additionalSuccessTexts])
  have h4 := halt "笔记已发布" (by simp [additionalSuccessTexts])
  simp [attemptOutcome, hrace, additionalSuccessTexts, h1, h2, h3, h4]

/-- Helper: when every attempt in the window fails to see a success signal,
the loop consumes all its attempts and returns publishSuccess = false. -/
theorem publishLoop_all_fail (att : Nat → AttemptEnv) :
    ∀ (fuel start : Nat),
      (∀ k, start ≤ k → k < start + fuel →
        ((att k).buttonVisible = true ∨ (att k).fallbackVisible = true ∨
          (att k).noteButtonVisible = true) ∧
        (att k).raceResult = none ∧
        (∀ t, t ∈ additionalSuccessTexts → (att k).altVisible t = false)) →
      publishLoop att start fuel = Except.ok false := by
  intro fuel
  induction fuel with
  | zero => intro start h; rfl
  | succ f ih =>
    intro start h
    obtain ⟨hbtn, hrace, halt⟩ := h start (Nat.le_refl start) (by omega)
    rw [publishLoop, runAttempt_ok (att start) hbtn, attemptOutcome_fail (att start) hrace halt]
    simp only [Bool.false_eq_true, if_false]
    exact ih (start + 1) (fun k hk1 hk2 => h k (by omega) (by omega))

/-- Helper: the settling wait, when it happens, is settleWait of the image
count. -/
theorem tryBody_wait (pe : PageEnv) (n : Nat) :
    (tryBody pe n).2 = none ∨ (tryBody pe n).2 = some (settleWait n) := by
  unfold tryBody
  split
  · simp
  · split
    · split
      · simp
      · simp
    · simp

/-- Helper: when navigation, login and the file input all cooperate, the try
block reduces to the retry loop after the settling wait. -/
theorem tryBody_loop (pe : PageEnv) (n : Nat)
    (hgoto : pe.gotoResult = none)
    (hpage : pe.onPublishPage = true ∨ pe.loginReached = true)
    (hfile : pe.fileInputAttached = true) :
    tryBody pe n = (publishLoop pe.attempt 1 maxRetries, some (settleWait n)) := by
  unfold tryBody
  rw [hgoto]
  rcases hpage with h | h <;> simp [h, hfile]

/-- Helper: when Chrome is found, ingestion succeeds and the session attaches,
runPublish reduces to the workflow tail. -/
theorem runPublish_steps (env : RunEnv) (cfg : PublishConfig) (p : String)
    (srcs actual written : List String) (acts : List SessionAction)
    (hc : env.chromePath = some p)
    (hs : sourcePaths cfg = Except.ok srcs)
    (hpi : processImages env srcs 0 [] = Except.ok (actual, written))
    (hcdp : connectCDP env = Except.ok acts) :
    runPublish env cfg = workflowOutcome env cfg actual acts := by
  simp [runPublish, hc, hs, hpi, hcdp]

/-- Helper: the workflow tail records the resolved images and the settling wait
of the try body in its trace. -/
theorem workflowOutcome_trace (env : RunEnv) (cfg : PublishConfig) (actual : List String)
    (acts : List SessionAction) :
    (workflowOutcome env cfg actual acts).2.resolved = actual ∧
    (workflowOutcome env cfg actual acts).2.settlingWait = (tryBody env.page actual.length).2 := by
  rcases htb : tryBody env.page actual.length with ⟨r, wt⟩
  unfold workflowOutcome
  rw [htb]
  rcases r with e | b
  · simp
  · cases b <;> simp

/-- Helper: every result object the workflow tail prints carries the config
correlation id and a status that is either success or failed. -/
theorem workflowOutcome_out (env : RunEnv) (cfg : PublishConfig) (actual : List String)
    (acts : List SessionAction) (o : OutValue)
    (h : (workflowOutcome env cfg actual acts).1 = Except.ok o) :
    o.taskId = cfg.taskId ∧ (o.status = "success" ∨ o.status = "failed") := by
  rcases htb : tryBody env.page actual.length with ⟨r, wt⟩
  unfold workflowOutcome at h
  rw [htb] at h
  rcases r with e | b
  · simp at h
    rw [← h]
    simp
  · cases b <;> simp at h <;> rw [← h] <;> simp

/-- Helper: whenever a run performed the settling wait, ingestion succeeded and
the wait is settleWait of the resolved image count. -/
theorem runPublish_shape (env : RunEnv) (cfg : PublishConfig) :
    (runPublish env cfg).2.settlingWait = none ∨
    ∃ srcs actual written acts,
      sourcePaths cfg = Except.ok srcs ∧
      processImages env srcs 0 [] = Except.ok (actual, written) ∧
      connectCDP env = Except.ok acts ∧
      (runPublish env cfg).2.resolved = actual ∧
      (runPublish env cfg).2.settlingWait = some (settleWait actual.length) := by
  cases hc : env.chromePath with
  | none => left; simp [runPublish, hc, emptyTrace]
  | some p =>
    cases hs : sourcePaths cfg with
    | error e => left; simp [runPublish, hc, hs, emptyTrace]
    | ok srcs =>
      cases hpi : processImages env srcs 0 [] with
      | error e => left; simp [runPublish, hc, hs, hpi, emptyTrace]
      | ok pr =>
        obtain ⟨actual, written⟩ := pr
        cases hcdp : connectCDP env with
        | error e => left; simp [runPublish, hc, hs, hpi, hcdp]
        | ok acts =>
          have hr := runPublish_steps env cfg p srcs actual written acts hc hs hpi hcdp
          have ht := workflowOutcome_trace env cfg actual acts
          rcases tryBody_wait env.page actual.length with hw | hw
          · left
            rw [hr, ht.2, hw]
          · right
            exact ⟨srcs, actual, written, acts, rfl, hpi, rfl, by rw [hr, ht.1],
              by rw [hr, ht.2, hw]⟩



/-- Helper: a run that reaches the retry loop and never sees a success signal
in any of its attempts still prints a success result carrying the
manual-verification message. -/
theorem runPublish_manual (env : RunEnv) (cfg : PublishConfig) (p : String)
    (srcs actual written : List String) (acts : List SessionAction)
    (hc : env.chromePath = some p)
    (hs : sourcePaths cfg = Except.ok srcs)
    (hpi : processImages env srcs 0 [] = Except.ok (actual, written))
    (hcdp : connectCDP env = Except.ok acts)
    (hgoto : env.page.gotoResult = none)
    (hpage : env.page.onPublishPage = true ∨ env.page.loginReached = true)
    (hfile : env.page.fileInputAttached = true)
    (hfail : ∀ k, 1 ≤ k → k ≤ maxRetries →
      ((env.page.attempt k).buttonVisible = true ∨ (env.page.attempt k).fallbackVisible = true ∨
        (env.page.attempt k).noteButtonVisible = true) ∧
      (env.page.attempt k).raceResult = none ∧
      (∀ t, t ∈ additionalSuccessTexts → (env.page.attempt k).altVisible t = false)) :
    (runPublish env cfg).1 = Except.ok ⟨cfg.taskId, "success", manualCheckMessage⟩ := by
  have hloop : publishLoop env.page.attempt 1 maxRetries = Except.ok false :=
    publishLoop_all_fail env.page.attempt maxRetries 1
      (fun k h1 h2 => hfail k h1 (by unfold maxRetries at h2 ⊢; omega))
  rw [runPublish_steps env cfg p srcs actual written acts hc hs hpi hcdp]
  unfold workflowOutcome
  rw [tryBody_loop env.page actual.length hgoto hpage hfile, hloop]

/-- Claim C1: every completed run writes exactly one JSON object to standard
output, of the shape (correlation id, status success or failed, data.message);
and on the end-to-end scenario with correlation id abc and a cooperating page,
the emitted object is (abc, success, 发布成功！). The code names the
correlation field taskId. -/
theorem claim_C1 :
    (∀ (env : RunEnv) (cfg : PublishConfig), ∃ l, mainStdout env cfg = [l]) ∧
    (∀ (env : RunEnv) (cfg : PublishConfig) (o : OutValue),
      (runPublish env cfg).1 = Except.ok o →
      o.taskId = cfg.taskId ∧ (o.status = "success" ∨ o.status = "failed")) ∧
    (∀ (env : RunEnv) (p : String) (sig : RaceSignal),
      env.chromePath = some p →
      env.cdpAvailable = true →
      env.page.gotoResult = none →
      env.page.onPublishPage = true →
      env.page.fileInputAttached = true →
      (env.page.attempt 1).buttonVisible = true →
      (env.page.attempt 1).raceResult = some sig →
      (runPublish env abcConfig).1 = Except.ok ⟨some "abc", "success", successMessage⟩) := by
  refine ⟨?_, ?_, ?_⟩
  · intro env cfg
    unfold mainStdout
    cases h : (runPublish env cfg).1
    · exact ⟨_, rfl⟩
    · exact ⟨_, rfl⟩
  · intro env cfg o h
    cases hc : env.chromePath with
    | none => simp [runPublish, hc] at h
    | some p =>
      cases hs : sourcePaths cfg with
      | error e => simp [runPublish, hc, hs] at h
      | ok srcs =>
        cases hpi : processImages env srcs 0 [] with
        | error e => simp [runPublish, hc, hs, hpi] at h
        | ok pr =>
          obtain ⟨actual, written⟩ := pr
          cases hcdp : connectCDP env with
          | error e => simp [runPublish, hc, hs, hpi, hcdp] at h
          | ok acts =>
            rw [runPublish_steps env cfg p srcs actual written acts hc hs hpi hcdp] at h
            exact workflowOutcome_out env cfg actual acts o h
  · intro env p sig hc hcdp hgoto hpage hfile hbtn hrace
    have hparse : parseDataImage "data:image/png;base64,AAAA" = some ("png", "AAAA") := by
      decide
    have hstep := processStep_data env 0 [] "data:image/png;base64,AAAA" "png" "AAAA"
      (by decide) (by decide) hparse
    rw [show (("png" : String) == "jpeg") = false from by decide] at hstep
    simp only [Bool.false_eq_true, if_false] at hstep
    have hpi : processImages env ["data:image/png;base64,AAAA"] 0 [] =
        Except.ok ([base64TargetPath env 0 "png"], [base64TargetPath env 0 "png"]) := by
      simp only [processImages, hstep]
    have hcdpok : connectCDP env = Except.ok [SessionAction.attach CDP_ENDPOINT] := by
      simp [connectCDP, hcdp]
    have hloop : publishLoop env.page.attempt 1 maxRetries = Except.ok true := by
      rw [show maxRetries = 3 from rfl, publishLoop,
        runAttempt_ok (env.page.attempt 1) (Or.inl hbtn)]
      simp [attemptOutcome, hrace]
    rw [runPublish_steps env abcConfig p ["data:image/png;base64,AAAA"]
      [base64TargetPath env 0 "png"] [base64TargetPath env 0 "png"]
      [SessionAction.attach CDP_ENDPOINT] hc rfl hpi hcdpok]
    unfold workflowOutcome
    rw [tryBody_loop env.page _ hgoto (Or.inl hpage) hfile, hloop]
    rfl

/-- Witness for claim C1 at the concrete cooperating environment. -/
theorem claim_C1_witness :
    (runPublish envCoop abcConfig).1 = Except.ok ⟨some "abc", "success", successMessage⟩ :=
  claim_C1.2.2 envCoop "/usr/bin/chrome" RaceSignal.textSuccess rfl rfl rfl rfl rfl rfl rfl

/-- Claim C2: every run that reaches the submit-and-confirm loop and exhausts
all 3 publish attempts without any success signal being detected still
terminates normally with a stdout result of status success carrying the
manual-verification message, and no exception is thrown past that point. -/
theorem claim_C2 (env : RunEnv) (cfg : PublishConfig) (p : String)
    (srcs actual written : List String) (acts : List SessionAction)
    (hc : env.chromePath = some p)
    (hs : sourcePaths cfg = Except.ok srcs)
    (hpi : processImages env srcs 0 [] = Except.ok (actual, written))
    (hcdp : connectCDP env = Except.ok acts)
    (hgoto : env.page.gotoResult = none)
    (hpage : env.page.onPublishPage = true ∨ env.page.loginReached = true)
    (hfile : env.page.fileInputAttached = true)
    (hfail : ∀ k, 1 ≤ k → k ≤ maxRetries →
      ((env.page.attempt k).buttonVisible = true ∨ (env.page.attempt k).fallbackVisible = true ∨
        (env.page.attempt k).noteButtonVisible = true) ∧
      (env.page.attempt k).raceResult = none ∧
      (∀ t, t ∈ additionalSuccessTexts → (env.page.attempt k).altVisible t = false)) :
    (runPublish env cfg).1 = Except.ok ⟨cfg.taskId, "success", manualCheckMessage⟩ :=
  runPublish_manual env cfg p srcs actual written acts hc hs hpi hcdp hgoto hpage hfile hfail

/-- Witness for claim C2 at a concrete environment with no success signal. -/
theorem claim_C2_witness :
    (runPublish envNoSignal cfg2).1 =
      Except.ok ⟨some "t2", "success", manualCheckMessage⟩ :=
  claim_C2 envNoSignal cfg2 "/usr/bin/chrome" ["a.png"] ["a.png"] []
    [SessionAction.attach CDP_ENDPOINT] rfl rfl rfl rfl rfl (Or.inl rfl) rfl
    (fun _ _ _ => ⟨Or.inl rfl, rfl, fun _ _ => rfl⟩)

/-- Claim C4: on the final attempt, after the race and the alternate rescan
both fail, the code scans for the fixed list of platform error messages; even
when one of them is visibly detected the reported outcome is still status
success — error detection never changes the emitted outcome. -/
theorem claim_C4 :
    errorMessages = ["发布失败", "请稍后再试", "网络错误", "请先登录", "内容违规", "审核不通过"] ∧
    ∀ (env : RunEnv) (cfg : PublishConfig) (p : String)
      (srcs actual written : List String) (acts : List SessionAction),
      env.chromePath = some p →
      sourcePaths cfg = Except.ok srcs →
      processImages env srcs 0 [] = Except.ok (actual, written) →
      connectCDP env = Except.ok acts →
      env.page.gotoResult = none →
      (env.page.onPublishPage = true ∨ env.page.loginReached = true) →
      env.page.fileInputAttached = true →
      (∀ k, 1 ≤ k → k ≤ maxRetries →
        ((env.page.attempt k).buttonVisible = true ∨
          (env.page.attempt k).fallbackVisible = true ∨
          (env.page.attempt k).noteButtonVisible = true) ∧
        (env.page.attempt k).raceResult = none ∧
        (∀ t, t ∈ additionalSuccessTexts → (env.page.attempt k).altVisible t = false)) →
      (∃ m, m ∈ errorMessages ∧ (env.page.attempt maxRetries).errorVisible m = true) →
      runAttempt (env.page.attempt maxRetries) =
        Except.ok ⟨false,
          uploadPopupMessages.any (env.page.attempt maxRetries).popupVisible, true⟩ ∧
      (runPublish env cfg).1 = Except.ok ⟨cfg.taskId, "success", manualCheckMessage⟩ := by
  refine ⟨rfl, ?_⟩
  intro env cfg p srcs actual written acts hc hs hpi hcdp hgoto hpage hfile hfail herr
  obtain ⟨hbtn3, hrace3, halt3⟩ := hfail maxRetries (by unfold maxRetries; omega) (Nat.le_refl _)
  have herrd : errorMessages.any (env.page.attempt maxRetries).errorVisible = true := by
    obtain ⟨m, hm, hv⟩ := herr
    exact List.any_eq_true.mpr ⟨m, hm, hv⟩
  constructor
  · rw [runAttempt_ok _ hbtn3, attemptOutcome_fail _ hrace3 halt3, herrd]
  · exact runPublish_manual env cfg p srcs actual written acts hc hs hpi hcdp hgoto hpage
      hfile hfail

/-- Witness for claim C4 at a concrete environment where 发布失败 is visible. -/
theorem claim_C4_witness :
    runAttempt (envErrSeen.page.attempt maxRetries) = Except.ok ⟨false, false, true⟩ ∧
    (runPublish envErrSeen cfg4).1 =
      Except.ok ⟨some "t4", "success", manualCheckMessage⟩ :=
  claim_C4.2 envErrSeen cfg4 "/usr/bin/chrome" ["a.png"] ["a.png"] []
    [SessionAction.attach CDP_ENDPOINT] rfl rfl rfl rfl rfl (Or.inl rfl) rfl
    (fun _ _ _ => ⟨Or.inl rfl, rfl, fun _ _ => rfl⟩)
    ⟨"发布失败", by decide, by decide⟩



/-- Claim C3, failing input: for an HTTP 404 response, downloadImage rejects
with the download-failure error yet the file created for dest is still on
disk afterwards, because the unlink only runs in the transport-error handler
(src/index.ts line 167) and not on the non-200 branch (line 158). -/
theorem claim_C3_bug :
    downloadImage (HttpResult.response 404 "Not Found") "/tmp/auto-tauri-xhs/publish_0_0.png" [] =
      (Except.error "Failed to download image: 404 Not Found",
        ["/tmp/auto-tauri-xhs/publish_0_0.png"]) := rfl

/-- Claim C5: ingestion either produces a resolved-path sequence of exactly the
input length, where element j resolves element j of the input, or the whole
request fails before any browser interaction — never a partial result. -/
theorem claim_C5 :
    (∀ (env : RunEnv) (srcs : List String) (i : Nat) (written out written2 : List String),
      processImages env srcs i written = Except.ok (out, written2) →
      out.length = srcs.length ∧
        ∀ (j : Nat) (hj : j < srcs.length) (hj2 : j < out.length),
          ∃ w w2, processStep env (i + j) (srcs.get ⟨j, hj⟩) w =
            Except.ok (out.get ⟨j, hj2⟩, w2)) ∧
    (∀ (env : RunEnv) (cfg : PublishConfig) (p : String) (srcs : List String) (e : String),
      env.chromePath = some p →
      sourcePaths cfg = Except.ok srcs →
      processImages env srcs 0 [] = Except.error e →
      runPublish env cfg = (Except.error e, emptyTrace)) := by
  constructor
  · intro env srcs i written out written2 h
    exact ⟨processImages_length env srcs i written out written2 h,
      processImages_get env srcs i written out written2 h⟩
  · intro env cfg p srcs e hc hs hpi
    simp [runPublish, hc, hs, hpi]

/-- Witness for claim C5 at a concrete one-image ingestion run. -/
theorem claim_C5_witness :
    ∃ w w2, processStep envCoop (0 + 0) "a.png" w = Except.ok ("a.png", w2) :=
  (claim_C5.1 envCoop ["a.png"] 0 [] ["a.png"] [] rfl).2 0 (by decide) (by decide)

/-- Claim C6: session acquisition is idempotent under an already-running
browser: when the liveness probe succeeds, connectCDP attaches directly to
the fixed endpoint and no browser process is spawned. -/
theorem claim_C6 (env : RunEnv) (h : env.cdpAvailable = true) :
    connectCDP env = Except.ok [SessionAction.attach CDP_ENDPOINT] ∧
    ∀ acts, connectCDP env = Except.ok acts → ∀ q, SessionAction.spawn q ∉ acts := by
  have h1 : connectCDP env = Except.ok [SessionAction.attach CDP_ENDPOINT] := by
    simp [connectCDP, h]
  refine ⟨h1, ?_⟩
  intro acts hacts q
  rw [h1] at hacts
  injection hacts with hacts
  subst hacts
  simp

/-- Witness for claim C6 at a concrete environment with CDP available. -/
theorem claim_C6_witness :
    connectCDP envCoop = Except.ok [SessionAction.attach CDP_ENDPOINT] :=
  (claim_C6 envCoop rfl).1

/-- Claim C7: page acquisition prefers reuse: with an existing context holding
an existing page it returns exactly that first page; with an empty first
context it opens a new page there; only with no context does it create a new
context with the fixed 1280x800 viewport and a new page. -/
theorem claim_C7 (b : BrowserModel) :
    (∀ ctx rest, b.contexts = ctx :: rest →
      (∀ p ps, ctx.pages = p :: ps → getOrCreatePage b = PageResult.existing p) ∧
      (ctx.pages = [] → getOrCreatePage b = PageResult.newPageInFirstContext)) ∧
    (b.contexts = [] → getOrCreatePage b = PageResult.newContextAndPage 1280 800) := by
  constructor
  · intro ctx rest hctx
    constructor
    · intro p ps hp
      simp [getOrCreatePage, hctx, hp]
    · intro hp
      simp [getOrCreatePage, hctx, hp]
  · intro hctx
    simp [getOrCreatePage, hctx]

/-- Witness for claim C7 at a browser with one context holding one page. -/
theorem claim_C7_witness :
    getOrCreatePage browser7 = PageResult.existing ⟨7⟩ :=
  ((claim_C7 browser7).1 ⟨[⟨7⟩]⟩ [] rfl).1 ⟨7⟩ [] rfl

/-- Claim C8: an InlineBase64 reference resolves to a file whose extension is
derived from the declared MIME subtype, with jpeg mapped to jpg and every
other subtype passed through unchanged. -/
theorem claim_C8 (env : RunEnv) (i : Nat) (written : List String)
    (s subtype payload : String)
    (h1 : strStartsWith s "http" = false)
    (h2 : strStartsWith s "data:image" = true)
    (h3 : parseDataImage s = some (subtype, payload)) :
    processStep env i s written =
      Except.ok (base64TargetPath env i (if subtype == "jpeg" then "jpg" else subtype),
        base64TargetPath env i (if subtype == "jpeg" then "jpg" else subtype) :: written) ∧
    ∀ ext, base64TargetPath env i ext =
      (env.tmpDir ++ "/publish_base64_" ++ toString (env.now i) ++ "_" ++ toString i) ++
        "." ++ ext :=
  ⟨processStep_data env i written s subtype payload h1 h2 h3, fun _ => rfl⟩

/-- Witness for claim C8 at a concrete jpeg data URL. -/
theorem claim_C8_witness :
    processStep envCoop 0 "data:image/jpeg;base64,AAAA" [] =
      Except.ok (base64TargetPath envCoop 0 "jpg", [base64TargetPath envCoop 0 "jpg"]) ∧
    ∀ ext, base64TargetPath envCoop 0 ext =
      (envCoop.tmpDir ++ "/publish_base64_" ++ toString (envCoop.now 0) ++ "_" ++
        toString 0) ++ "." ++ ext :=
  claim_C8 envCoop 0 [] "data:image/jpeg;base64,AAAA" "jpeg" "AAAA"
    (by decide) (by decide) (by decide)

/-- Claim C9: every run that uploads n images performs a settling wait of
min(30 + 5(n-1), 60) seconds, and n is at least 1. -/
theorem claim_C9 (env : RunEnv) (cfg : PublishConfig) (w : Int)
    (h : (runPublish env cfg).2.settlingWait = some w) :
    1 ≤ (runPublish env cfg).2.resolved.length ∧
    w = min (30 + 5 * (((runPublish env cfg).2.resolved.length : Int) - 1)) 60 := by
  rcases runPublish_shape env cfg with hn |
    ⟨srcs, actual, written, acts, hs, hpi, hcdp, hres, hw⟩
  · rw [hn] at h; cases h
  · rw [hw] at h
    injection h with h
    have hlen : actual.length = srcs.length :=
      processImages_length env srcs 0 [] actual written hpi
    have hne : 1 ≤ srcs.length := sourcePaths_nonempty cfg srcs hs
    rw [hres]
    constructor
    · omega
    · rw [← h]
      simp [settleWait, mul_comm]

/-- Witness for claim C9 at a concrete one-image run: the wait is 30s. -/
theorem claim_C9_witness :
    1 ≤ (runPublish envCoop cfg9).2.resolved.length ∧
    (30 : Int) = min (30 + 5 * (((runPublish envCoop cfg9).2.resolved.length : Int) - 1)) 60 :=
  claim_C9 envCoop cfg9 30 rfl

/-- Claim C10: a RemoteUrl reference that downloads successfully is saved under
a name of the form publish_:timestamp:_:index:.png — the extension is always
png regardless of the URL. -/
theorem claim_C10 (env : RunEnv) (i : Nat) (written : List String) (s m : String)
    (h1 : strStartsWith s "http" = true)
    (h2 : env.download i = HttpResult.response 200 m) :
    processStep env i s written =
      Except.ok (remoteTargetPath env i, remoteTargetPath env i :: written) ∧
    remoteTargetPath env i =
      (env.tmpDir ++ "/publish_" ++ toString (env.now i) ++ "_" ++ toString i) ++ ".png" :=
  ⟨processStep_remote env i written s m h1 h2, rfl⟩

/-- Witness for claim C10 at a concrete jpg-extension URL. -/
theorem claim_C10_witness :
    processStep envCoop 0 "http://example.com/a.jpg" [] =
      Except.ok (remoteTargetPath envCoop 0, [remoteTargetPath envCoop 0]) ∧
    remoteTargetPath envCoop 0 =
      (envCoop.tmpDir ++ "/publish_" ++ toString (envCoop.now 0) ++ "_" ++ toString 0) ++
        ".png" :=
  claim_C10 envCoop 0 [] "http://example.com/a.jpg" "OK" (by decide) rfl


end XhsAgent
